import Mathlib

/-!
# ChatTherapy backend (`therapy-chatbot-backend/server.js`)

A shallow embedding of the two request handlers of `server.js` and the
properties of them that the specification states.

JavaScript values are embedded as the inductive type `JsVal`; the operators the
handlers use (`!`, `||`, `?.`, member access, destructuring) are embedded as
functions on `JsVal`.  Code that can throw returns `Except JsVal _`, the error
being the thrown value.  The Dialogflow client (`sessionClient`) and the clock
are not part of the repository: they are parameters of the handlers.
-/

namespace ChatTherapy

/-! ## JavaScript values -/

/-- A JavaScript number.  The handlers do no arithmetic: they only test numbers
for truthiness and pass them on, so a finite value is kept as a rational. -/
inductive JsNum where
  | fin (q : ℚ)
  | negZero
  | nan
  | inf (negative : Bool)
  deriving DecidableEq

/-- A JavaScript value as it reaches the handlers: a parsed JSON body, an
environment variable, a value returned or thrown by the Dialogflow client.
An object is the list of its own properties, each key once. -/
inductive JsVal where
  | undefined
  | null
  | bool (b : Bool)
  | num (n : JsNum)
  | str (s : String)
  | arr (items : List JsVal)
  | obj (fields : List (String × JsVal))

namespace JsVal

/-- The abstract operation `ToBoolean`: what `!v` and `v || w` test. -/
def toBoolean : JsVal → Bool
  | undefined => false
  | null => false
  | bool b => b
  | num (JsNum.fin q) => decide (q ≠ 0)
  | num JsNum.negZero => false
  | num JsNum.nan => false
  | num (JsNum.inf _) => true
  | str s => decide (s ≠ "")
  | arr _ => true
  | obj _ => true

/-- The values `undefined` and `null`: member access on them throws. -/
def isNullish : JsVal → Bool
  | undefined => true
  | null => true
  | _ => false

/-- The operator `a || b`. -/
def or (a b : JsVal) : JsVal :=
  if a.toBoolean then a else b

/-- The value of `v.k` for a `v` that is not nullish and a key `k` that no
built-in prototype defines (every key the handlers read is such a key): the
own property of an object, `undefined` on anything else. -/
def prop (v : JsVal) (k : String) : JsVal :=
  match v with
  | obj fields => (fields.lookup k).getD undefined
  | _ => undefined

end JsVal

open JsVal

/-- The `TypeError` the runtime throws, with its message. -/
def typeError (msg : String) : JsVal :=
  obj [("name", str "TypeError"), ("message", str msg)]

/-- Member access `v.k`: throws a `TypeError` on `undefined` and `null`. -/
def getMember (v : JsVal) (k : String) : Except JsVal JsVal :=
  if v.isNullish then Except.error (typeError "Cannot read properties of undefined or null")
  else Except.ok (v.prop k)

/-- Optional chaining `v?.k`. -/
def optChain (v : JsVal) (k : String) : JsVal :=
  if v.isNullish then undefined else v.prop k

/-- The first element taken by the array pattern `const [x] = v`: `v` has to be
iterable (an array or a string), and `x` is `undefined` when it is empty. -/
def firstOfIterable : JsVal → Except JsVal JsVal
  | arr items => Except.ok (items.head?.getD undefined)
  | str s =>
      match s.toList with
      | [] => Except.ok undefined
      | c :: _ => Except.ok (str (String.singleton c))
  | _ => Except.error (typeError "value is not iterable")

/-! ## The handlers -/

/-- What a handler sent: `res.status(code).json(body)`, the status being 200
when `res.json` is called alone. -/
structure Response where
  status : Nat
  body : JsVal

/-- The two methods of the Dialogflow `SessionsClient` that the chat handler
calls.  `projectAgentSessionPath` returns a session path or throws;
`detectIntent` stands for the awaited call: the value the promise resolves
with, or the value it rejects with. -/
structure SessionsClient where
  projectAgentSessionPath : String → JsVal → Except JsVal JsVal
  detectIntent : JsVal → Except JsVal JsVal

/-- The default of the `sessionId` pattern (line 31). -/
def defaultSessionId : JsVal := str "default-session"

/-- The text sent when Dialogflow gave no fulfillment text (line 66). -/
def apologyText : String :=
  "I apologize, but I didn\x27t understand that. Could you rephrase?"

/-- The binding `sessionId = 'default-session'` of the pattern of line 31: the
default replaces `undefined` (a missing property) and nothing else. -/
def sessionIdOf (body : JsVal) : JsVal :=
  match body.prop "sessionId" with
  | undefined => defaultSessionId
  | v => v

/-- Line 31, `const { message, sessionId = 'default-session' } = req.body`:
throws on a nullish body. -/
def destructureBody (body : JsVal) : Except JsVal (JsVal × JsVal) :=
  if body.isNullish then Except.error (typeError "Cannot destructure the body")
  else Except.ok (body.prop "message", sessionIdOf body)

/-- Lines 45-53: the request object sent to Dialogflow. -/
def buildRequest (sessionPath message : JsVal) : JsVal :=
  obj [("session", sessionPath),
       ("queryInput", obj [("text", obj [("text", message), ("languageCode", str "en-US")])])]

/-- Lines 65-70: the `result` object. -/
def buildResult (queryResult sessionId : JsVal) : JsVal :=
  obj [("text", (queryResult.prop "fulfillmentText").or (str apologyText)),
       ("intent", (optChain (queryResult.prop "intent") "displayName").or (str "unknown")),
       ("confidence", (queryResult.prop "intentDetectionConfidence").or (num (JsNum.fin 0))),
       ("sessionId", sessionId)]

/-- Lines 57-72, from the resolved value of `detectIntent` on: the array
pattern, the arguments of `console.log` (the first read of
`response.queryResult.intent`, which throws on a reply without `queryResult`),
the `result` object and `res.json(result)`. -/
def handleReply (resolved sessionId : JsVal) : Except JsVal Response := do
  let response ← firstOfIterable resolved
  let queryResult ← getMember response "queryResult"
  let intent ← getMember queryResult "intent"
  let _logIntent := (optChain intent "displayName").or (str "No intent")
  let _logText ← getMember queryResult "fulfillmentText"
  pure ⟨200, buildResult queryResult sessionId⟩

/-- The `try` block of the chat handler (lines 31-72): the `detectIntent`
requests it issued, in order, and either the response it sent or the value it
threw. -/
def chatTry (client : SessionsClient) (projectId : Option String) (body : JsVal) :
    List JsVal × Except JsVal Response :=
  match destructureBody body with
  | Except.error e => ([], Except.error e)
  | Except.ok (message, sessionId) =>
    if !message.toBoolean then
      ([], Except.ok ⟨400, obj [("error", str "Message is required")]⟩)
    else
      match projectId with
      | none => ([], Except.ok ⟨500, obj [("error", str "Dialogflow project ID not configured")]⟩)
      | some pid =>
        if pid = "" then
          ([], Except.ok ⟨500, obj [("error", str "Dialogflow project ID not configured")]⟩)
        else
          match client.projectAgentSessionPath pid sessionId with
          | Except.error e => ([], Except.error e)
          | Except.ok sessionPath =>
            let request := buildRequest sessionPath message
            match client.detectIntent request with
            | Except.error e => ([request], Except.error e)
            | Except.ok resolved => ([request], handleReply resolved sessionId)

/-- The response of the `catch` block (lines 78-82). -/
def fallbackResponse : Response :=
  ⟨500, obj [("error", str "Failed to process message"),
             ("text", str "I\x27m having trouble connecting right now. Please try again in a moment."),
             ("intent", str "error")]⟩

/-- What one run of the chat handler did: the response it sent and the
`detectIntent` requests it issued. -/
structure Outcome where
  response : Response
  calls : List JsVal

/-- The chat handler, `app.post('/chat', ...)` (lines 29-84): the `try` block,
and the `catch` block for whatever it threw. -/
def chat (client : SessionsClient) (projectId : Option String) (body : JsVal) : Outcome :=
  match chatTry client projectId body with
  | (calls, Except.ok res) => ⟨res, calls⟩
  | (calls, Except.error _) => ⟨fallbackResponse, calls⟩

/-! ## The clock and `Date`

The health handler reads the clock with `new Date()` and formats it with
`toISOString()`.  Both belong to the JavaScript runtime; they are embedded here
as ECMA-262 defines them (time values in milliseconds since the epoch, the
day and year arithmetic of the section on time values, the date-time string
format), together with the reading of that format that `Date.parse` does. -/

/-- The number of milliseconds of a day. -/
def msPerDay : Int := 86400000

/-- The day number of a time value, `Day(t)`. -/
def day (t : Int) : Int := t / msPerDay

/-- The number of days of a year, `DaysInYear(y)`. -/
def daysInYear (y : Int) : Int :=
  if y % 4 ≠ 0 then 365
  else if y % 100 ≠ 0 then 366
  else if y % 400 ≠ 0 then 365
  else 366

/-- The day number of the first day of a year, `DayFromYear(y)`. -/
def dayFromYear (y : Int) : Int :=
  365 * (y - 1970) + (y - 1969) / 4 - (y - 1901) / 100 + (y - 1601) / 400

/-- The year a day lies in: an estimate from the mean length of a year,
corrected by at most one year. -/
def yearFromDay (d : Int) : Int :=
  let y := 1970 + d * 400 / 146097
  if d < dayFromYear y then y - 1
  else if dayFromYear (y + 1) ≤ d then y + 1
  else y

/-- The year of a time value, `YearFromTime(t)`. -/
def yearFromTime (t : Int) : Int := yearFromDay (day t)

/-- The leap day of a year, `InLeapYear`: 1 in a leap year, else 0. -/
def leapDays (y : Int) : Int := if daysInYear y = 366 then 1 else 0

/-- The day within the year, `DayWithinYear(t)`. -/
def dayWithinYear (t : Int) : Int := day t - dayFromYear (yearFromTime t)

/-- The day within the year on which month `m` (0 to 11) starts. -/
def monthStart (m leap : Int) : Int :=
  if m = 0 then 0
  else if m = 1 then 31
  else if m = 2 then 59 + leap
  else if m = 3 then 90 + leap
  else if m = 4 then 120 + leap
  else if m = 5 then 151 + leap
  else if m = 6 then 181 + leap
  else if m = 7 then 212 + leap
  else if m = 8 then 243 + leap
  else if m = 9 then 273 + leap
  else if m = 10 then 304 + leap
  else 334 + leap

/-- The month (0 to 11) of a day within the year, the table of `MonthFromTime`. -/
def monthOfDay (d leap : Int) : Int :=
  if d < 31 then 0
  else if d < 59 + leap then 1
  else if d < 90 + leap then 2
  else if d < 120 + leap then 3
  else if d < 151 + leap then 4
  else if d < 181 + leap then 5
  else if d < 212 + leap then 6
  else if d < 243 + leap then 7
  else if d < 273 + leap then 8
  else if d < 304 + leap then 9
  else if d < 334 + leap then 10
  else 11

/-- The month of a time value, `MonthFromTime(t)`. -/
def monthFromTime (t : Int) : Int :=
  monthOfDay (dayWithinYear t) (leapDays (yearFromTime t))

/-- The day of the month of a time value, `DateFromTime(t)`. -/
def dateFromTime (t : Int) : Int :=
  dayWithinYear t - monthStart (monthFromTime t) (leapDays (yearFromTime t)) + 1

/-- The hour of a time value, `HourFromTime(t)`. -/
def hourFromTime (t : Int) : Int := t / 3600000 % 24

/-- The minute of a time value, `MinFromTime(t)`. -/
def minFromTime (t : Int) : Int := t / 60000 % 60

/-- The second of a time value, `SecFromTime(t)`. -/
def secFromTime (t : Int) : Int := t / 1000 % 60

/-- The millisecond of a time value, `msFromTime(t)`. -/
def msFromTime (t : Int) : Int := t % 1000

/-- The time within the day of its fields, `MakeTime`. -/
def makeTime (h m s ms : Int) : Int := h * 3600000 + m * 60000 + s * 1000 + ms

/-- The day number of a year, a month (0 to 11) and a day of the month,
`MakeDay`. -/
def makeDay (year month date : Int) : Int :=
  dayFromYear year + monthStart month (leapDays year) + date - 1

/-- The time value of a day number and a time within the day, `MakeDate`. -/
def makeDate (d time : Int) : Int := d * msPerDay + time

/-- The valid time values, `TimeClip`: at most 8.64e15 milliseconds from the
epoch; `none` stands for `NaN`, the time value of an invalid date. -/
def timeClip (t : Int) : Option Int :=
  if -8640000000000000 ≤ t ∧ t ≤ 8640000000000000 then some t else none

/-- The character of a decimal digit. -/
def digitChar (d : Nat) : Char := Char.ofNat (48 + d % 10)

/-- The decimal digits of `n`, padded with zeros to the width `w`. -/
def pad : Nat → Nat → List Char
  | 0, _ => []
  | w + 1, n => digitChar (n / 10 ^ w) :: pad w (n % 10 ^ w)

/-- The year of `toISOString`: four digits for the years 0 to 9999, else a sign
and six digits. -/
def yearChars (y : Int) : List Char :=
  if 0 ≤ y ∧ y ≤ 9999 then pad 4 y.toNat
  else (if y < 0 then '-' else '+') :: pad 6 y.natAbs

/-- The characters of `YYYY-MM-DDTHH:mm:ss.sssZ` for a time value. -/
def isoChars (t : Int) : List Char :=
  yearChars (yearFromTime t) ++ '-' :: (pad 2 (monthFromTime t + 1).toNat ++
    '-' :: (pad 2 (dateFromTime t).toNat ++ 'T' :: (pad 2 (hourFromTime t).toNat ++
    ':' :: (pad 2 (minFromTime t).toNat ++ ':' :: (pad 2 (secFromTime t).toNat ++
    '.' :: (pad 3 (msFromTime t).toNat ++ ['Z']))))))

/-- The string `Date.prototype.toISOString` returns for a valid time value. -/
def isoString (t : Int) : String := String.mk (isoChars t)

/-- The value of a decimal digit. -/
def digitValue (c : Char) : Option Nat :=
  if 48 ≤ c.toNat ∧ c.toNat ≤ 57 then some (c.toNat - 48) else none

/-- Reads exactly `w` decimal digits, continuing the number `acc`. -/
def readDigitsFrom (acc : Nat) : Nat → List Char → Option (Nat × List Char)
  | 0, cs => some (acc, cs)
  | _ + 1, [] => none
  | w + 1, c :: cs =>
    match digitValue c with
    | some v => readDigitsFrom (acc * 10 + v) w cs
    | none => none

/-- Reads a number of exactly `w` decimal digits. -/
def readDigits (w : Nat) (cs : List Char) : Option (Nat × List Char) :=
  readDigitsFrom 0 w cs

/-- Reads the character `c`. -/
def expectChar (c : Char) : List Char → Option (List Char)
  | [] => none
  | x :: xs => if x = c then some xs else none

/-- Reads a year: four digits, or a sign and six digits (`-000000` is not a
year). -/
def readYear : List Char → Option (Int × List Char)
  | [] => none
  | c :: cs =>
    if c = '+' then
      match readDigits 6 cs with
      | some (n, rest) => some ((n : Int), rest)
      | none => none
    else if c = '-' then
      match readDigits 6 cs with
      | some (n, rest) => if n = 0 then none else some (-(n : Int), rest)
      | none => none
    else
      match readDigits 4 (c :: cs) with
      | some (n, rest) => some ((n : Int), rest)
      | none => none

/-- The number of days of month `m` (0 to 11) of year `y`. -/
def daysInMonth (y m : Int) : Int :=
  if m = 11 then 31 else monthStart (m + 1) (leapDays y) - monthStart m (leapDays y)

/-- The fields of a date-time string of the form `toISOString` writes. -/
structure DateFields where
  year : Int
  month : Nat
  date : Nat
  hour : Nat
  minute : Nat
  second : Nat
  ms : Nat

/-- Reads a number of exactly `w` digits and the character `c` after it. -/
def readNumberThen (w : Nat) (c : Char) (cs : List Char) : Option (Nat × List Char) :=
  match readDigits w cs with
  | none => none
  | some (n, rest) =>
    match expectChar c rest with
    | none => none
    | some rest => some (n, rest)

/-- Reads the time of day `HH:mm:ss.sssZ`, which has to end the string. -/
def readTimeOfDay (cs : List Char) : Option (Nat × Nat × Nat × Nat) :=
  match readNumberThen 2 ':' cs with
  | none => none
  | some (hour, cs) =>
    match readNumberThen 2 ':' cs with
    | none => none
    | some (minute, cs) =>
      match readNumberThen 2 '.' cs with
      | none => none
      | some (second, cs) =>
        match readNumberThen 3 'Z' cs with
        | none => none
        | some (ms, cs) => if cs = [] then some (hour, minute, second, ms) else none

/-- Reads the fields of a string `YYYY-MM-DDTHH:mm:ss.sssZ` (or with an
expanded year), all of it. -/
def readFields (cs : List Char) : Option DateFields :=
  match readYear cs with
  | none => none
  | some (year, cs) =>
    match expectChar '-' cs with
    | none => none
    | some cs =>
      match readNumberThen 2 '-' cs with
      | none => none
      | some (month, cs) =>
        match readNumberThen 2 'T' cs with
        | none => none
        | some (date, cs) =>
          match readTimeOfDay cs with
          | none => none
          | some (hour, minute, second, ms) =>
            some ⟨year, month, date, hour, minute, second, ms⟩

/-- The time value of the fields, when they are those of a date-time. -/
def fieldsTime (f : DateFields) : Option Int :=
  if 1 ≤ f.month ∧ f.month ≤ 12 ∧ 1 ≤ f.date ∧
      (f.date : Int) ≤ daysInMonth f.year (f.month - 1 : Nat) ∧
      f.hour ≤ 23 ∧ f.minute ≤ 59 ∧ f.second ≤ 59 then
    timeClip (makeDate (makeDay f.year ((f.month : Int) - 1) f.date)
      (makeTime f.hour f.minute f.second f.ms))
  else none

/-- The function `Date.parse` on the complete date-time form with the `Z`
offset, the form `toISOString` writes: the time value of the string, `none`
when the string is not a date-time of that form. -/
def parseISO (s : String) : Option Int :=
  match readFields s.toList with
  | some f => fieldsTime f
  | none => none

/-- The `RangeError` the runtime throws, with its message. -/
def rangeError (msg : String) : JsVal :=
  obj [("name", str "RangeError"), ("message", str msg)]

/-- The time value of `new Date()` when the clock reads `clock` milliseconds
since the epoch.  ECMA-262 takes the current time to be a time value, so a
clock reads within the range of `timeClip`; a reading outside of it would give
an invalid date. -/
def newDate (clock : Int) : Option Int := timeClip clock

/-- The method `toISOString()`: throws a `RangeError` on an invalid date. -/
def toISOString : Option Int → Except JsVal String
  | none => Except.error (rangeError "Invalid time value")
  | some t => Except.ok (isoString t)

/-- The health handler, `app.get('/', ...)` (lines 20-26), when the clock reads
`clock`: it reads nothing of the request and nothing of the configuration. -/
def health (clock : Int) : Except JsVal Response := do
  let timestamp ← toISOString (newDate clock)
  pure ⟨200, obj [("message", str "Therapy Chatbot Backend is running!"),
                  ("status", str "healthy"),
                  ("timestamp", str timestamp)]⟩

/-! ## Replies of the external service -/

/-- The `queryResult` that lines 57-60 find in the value `detectIntent` resolved
with: the value has to be iterable, its first element must not be nullish, and
neither must that element's `queryResult`.  A resolved value without one is
what the specification calls a malformed reply. -/
def queryResultOf (resolved : JsVal) : Option JsVal :=
  match firstOfIterable resolved with
  | Except.error _ => none
  | Except.ok response =>
    if response.isNullish then none
    else if (response.prop "queryResult").isNullish then none
    else some (response.prop "queryResult")

/-- The intent of a Dialogflow query result, as the SDK types it
(`IIntent`, reduced to the field the handler reads). -/
structure Intent where
  displayName : Option String

/-- The query result of a Dialogflow reply, as the SDK types it
(`IQueryResult`, reduced to the fields the handler reads); a field that is not
set reads as `null`. -/
structure QueryResult where
  fulfillmentText : Option String
  intent : Option Intent
  intentDetectionConfidence : Option JsNum

/-- A Dialogflow reply as the SDK types it (`IDetectIntentResponse`). -/
structure DetectIntentResponse where
  queryResult : Option QueryResult

/-- An optional string field as a JavaScript value. -/
def optStr : Option String → JsVal
  | none => null
  | some s => str s

/-- An optional number field as a JavaScript value. -/
def optNum : Option JsNum → JsVal
  | none => null
  | some n => num n

/-- An intent as a JavaScript value. -/
def Intent.toJs (i : Intent) : JsVal :=
  obj [("displayName", optStr i.displayName)]

/-- A query result as a JavaScript value. -/
def QueryResult.toJs (r : QueryResult) : JsVal :=
  obj [("fulfillmentText", optStr r.fulfillmentText),
       ("intent", match r.intent with
                  | none => null
                  | some i => i.toJs),
       ("intentDetectionConfidence", optNum r.intentDetectionConfidence)]

/-- A reply as a JavaScript value. -/
def DetectIntentResponse.toJs (r : DetectIntentResponse) : JsVal :=
  obj [("queryResult", match r.queryResult with
                       | none => null
                       | some q => q.toJs)]

/-- The value `detectIntent` resolves with: an array whose first element is the
reply (the SDK appends the request and the call options, here `rest`). -/
def resolvedWith (reply : DetectIntentResponse) (rest : List JsVal) : JsVal :=
  arr (reply.toJs :: rest)

/-- A number within the closed interval from 0 to 1. -/
def JsNum.inUnit : JsNum → Prop
  | JsNum.fin q => 0 ≤ q ∧ q ≤ 1
  | _ => False

/-- A JavaScript value that is a number within the closed interval from 0 to 1. -/
def JsVal.inUnit : JsVal → Prop
  | num n => n.inUnit
  | _ => False

instance (n : JsNum) : Decidable n.inUnit := by
  cases n <;> unfold JsNum.inUnit <;> infer_instance

instance (v : JsVal) : Decidable v.inUnit := by
  cases v <;> unfold JsVal.inUnit <;> infer_instance

/-- A client for evaluating the handler at concrete inputs.  Its session path
follows the template of the SDK, `projects/{project}/agent/sessions/{session}`,
for a session id that is a non-empty string, and it throws on any other id, the
way a renderer that converts the id with `toString()` throws on `null`; its
`detectIntent` settles every call with `outcome`. -/
def sampleClient (outcome : Except JsVal JsVal) : SessionsClient where
  projectAgentSessionPath := fun project session =>
    match session with
    | str s =>
      if s = "" then Except.error (typeError "render fails for not matching")
      else Except.ok (str ("projects/" ++ project ++ "/agent/sessions/" ++ s))
    | _ => Except.error (typeError "Cannot read properties of null")
  detectIntent := fun _ => outcome

/-- A reply for evaluating the handler: the welcome intent, matched with
confidence 1. -/
def sampleReply : DetectIntentResponse :=
  ⟨some ⟨some "Hello! How are you feeling today?", some ⟨some "Default Welcome Intent"⟩,
    some (JsNum.fin 1)⟩⟩

/-- The numbers that are zero: `0` and `-0`. -/
def JsNum.isZero : JsNum → Bool
  | JsNum.fin q => decide (q = 0)
  | JsNum.negZero => true
  | _ => false

/-- A field that is present: neither missing (`undefined`) nor `null`. -/
def isPresent (v : JsVal) : Bool := !v.isNullish

/-- The empty string. -/
def isEmptyString : JsVal → Bool
  | str s => decide (s = "")
  | _ => false

/-- The number zero. -/
def isZeroNumber : JsVal → Bool
  | num n => n.isZero
  | _ => false

/-- The text of the response as the specification words it: the fulfillment
text if present and non-empty, else the fixed apology. -/
def referenceText (queryResult : JsVal) : JsVal :=
  if isPresent (queryResult.prop "fulfillmentText") &&
      !isEmptyString (queryResult.prop "fulfillmentText") then
    queryResult.prop "fulfillmentText"
  else str apologyText

/-- The intent of the response as the specification words it: the display name
of the intent if the reply has an intent with a non-empty display name, else
"unknown". -/
def referenceIntent (queryResult : JsVal) : JsVal :=
  if isPresent (queryResult.prop "intent") &&
      isPresent ((queryResult.prop "intent").prop "displayName") &&
      !isEmptyString ((queryResult.prop "intent").prop "displayName") then
    (queryResult.prop "intent").prop "displayName"
  else str "unknown"

/-- The confidence of the response as the specification words it: the
confidence of the reply if present and non-zero, else 0. -/
def referenceConfidence (queryResult : JsVal) : JsVal :=
  if isPresent (queryResult.prop "intentDetectionConfidence") &&
      !isZeroNumber (queryResult.prop "intentDetectionConfidence") then
    queryResult.prop "intentDetectionConfidence"
  else num (JsNum.fin 0)

/-- The response mapping as the specification words it: the four fields, from
the query result of the reply and the session id of the request. -/
def referenceResult (queryResult sessionId : JsVal) : JsVal :=
  obj [("text", referenceText queryResult),
       ("intent", referenceIntent queryResult),
       ("confidence", referenceConfidence queryResult),
       ("sessionId", sessionId)]

/-- A string field as the service sends it: a string, or not set. -/
def isOptString : JsVal → Bool
  | undefined => true
  | null => true
  | str _ => true
  | _ => false

/-- A number field as the service sends it: a finite number, or not set. -/
def isOptFiniteNumber : JsVal → Bool
  | undefined => true
  | null => true
  | num (JsNum.fin _) => true
  | num JsNum.negZero => true
  | _ => false

/-- The three fields the handler reads of a query result, typed as the service
sends them: the fulfillment text and the display name of the intent (if there
is an intent) are strings or not set, the confidence is a finite number or not
set.  Any other field may be there as well. -/
def typedQueryResult (queryResult : JsVal) : Bool :=
  isOptString (queryResult.prop "fulfillmentText") &&
  isOptString (optChain (queryResult.prop "intent") "displayName") &&
  isOptFiniteNumber (queryResult.prop "intentDetectionConfidence")

/-- A query result as Dialogflow sends it, with fields the handler does not
read. -/
def dialogflowQueryResult : JsVal :=
  obj [("queryText", str "hi"),
       ("languageCode", str "en"),
       ("parameters", obj []),
       ("allRequiredParamsPresent", bool true),
       ("fulfillmentText", str "Hello! How are you feeling today?"),
       ("fulfillmentMessages", arr []),
       ("intent", obj [("name", str "projects/proj/agent/intents/7f3a"),
                       ("displayName", str "Default Welcome Intent")]),
       ("intentDetectionConfidence", num (JsNum.fin 1))]

/-- The value `detectIntent` resolves with for `dialogflowQueryResult`: the
reply, and the two further elements of the array. -/
def dialogflowResolved : JsVal :=
  arr [obj [("responseId", str "c1f0-8d2e"),
            ("queryResult", dialogflowQueryResult),
            ("webhookStatus", null)],
       undefined, undefined]

/-! ## How the chat handler runs, case by case -/

theorem chat_nullish_body (client : SessionsClient) (projectId : Option String) (body : JsVal)
    (hb : body.isNullish = true) :
    chat client projectId body = ⟨fallbackResponse, []⟩ := by
  simp [chat, chatTry, destructureBody, hb]

theorem chat_falsy_message (client : SessionsClient) (projectId : Option String) (body : JsVal)
    (hb : body.isNullish = false) (hm : (body.prop "message").toBoolean = false) :
    chat client projectId body = ⟨⟨400, obj [("error", str "Message is required")]⟩, []⟩ := by
  simp [chat, chatTry, destructureBody, hb, hm]

theorem chat_no_project (client : SessionsClient) (projectId : Option String) (body : JsVal)
    (hb : body.isNullish = false) (hm : (body.prop "message").toBoolean = true)
    (hp : projectId = none ∨ projectId = some "") :
    chat client projectId body =
      ⟨⟨500, obj [("error", str "Dialogflow project ID not configured")]⟩, []⟩ := by
  rcases hp with hp | hp <;> simp [chat, chatTry, destructureBody, hb, hm, hp]

theorem chat_path_throws (client : SessionsClient) (pid : String) (body e : JsVal)
    (hb : body.isNullish = false) (hm : (body.prop "message").toBoolean = true)
    (hp : pid ≠ "")
    (hpath : client.projectAgentSessionPath pid (sessionIdOf body) = Except.error e) :
    chat client (some pid) body = ⟨fallbackResponse, []⟩ := by
  simp [chat, chatTry, destructureBody, hb, hm, hp, hpath]

theorem chat_detect_rejects (client : SessionsClient) (pid : String) (body sessionPath e : JsVal)
    (hb : body.isNullish = false) (hm : (body.prop "message").toBoolean = true)
    (hp : pid ≠ "")
    (hpath : client.projectAgentSessionPath pid (sessionIdOf body) = Except.ok sessionPath)
    (hdet : client.detectIntent (buildRequest sessionPath (body.prop "message")) = Except.error e) :
    chat client (some pid) body =
      ⟨fallbackResponse, [buildRequest sessionPath (body.prop "message")]⟩ := by
  simp [chat, chatTry, destructureBody, hb, hm, hp, hpath, hdet]

theorem chat_detect_resolves (client : SessionsClient) (pid : String)
    (body sessionPath resolved : JsVal)
    (hb : body.isNullish = false) (hm : (body.prop "message").toBoolean = true)
    (hp : pid ≠ "")
    (hpath : client.projectAgentSessionPath pid (sessionIdOf body) = Except.ok sessionPath)
    (hdet : client.detectIntent (buildRequest sessionPath (body.prop "message"))
      = Except.ok resolved) :
    chat client (some pid) body =
      ⟨(match handleReply resolved (sessionIdOf body) with
          | Except.ok res => res
          | Except.error _ => fallbackResponse),
        [buildRequest sessionPath (body.prop "message")]⟩ := by
  cases hr : handleReply resolved (sessionIdOf body) <;>
    simp [chat, chatTry, destructureBody, hb, hm, hp, hpath, hdet, hr]

theorem handleReply_of_queryResult (resolved sessionId queryResult : JsVal)
    (h : queryResultOf resolved = some queryResult) :
    handleReply resolved sessionId = Except.ok ⟨200, buildResult queryResult sessionId⟩ := by
  unfold queryResultOf at h
  unfold handleReply
  cases hf : firstOfIterable resolved with
  | error e => simp [hf] at h
  | ok response =>
    simp only [hf] at h
    by_cases h1 : response.isNullish = true
    · simp [h1] at h
    · by_cases h2 : (response.prop "queryResult").isNullish = true
      · simp [h1, h2] at h
      · simp only [h1, h2] at h
        simp at h
        subst h
        simp [getMember, h1, h2, bind, Except.bind, pure, Except.pure]

theorem handleReply_of_malformed (resolved sessionId : JsVal)
    (h : queryResultOf resolved = none) :
    ∃ e, handleReply resolved sessionId = Except.error e := by
  unfold queryResultOf at h
  unfold handleReply
  cases hf : firstOfIterable resolved with
  | error e => exact ⟨e, by simp [bind, Except.bind]⟩
  | ok response =>
    simp only [hf] at h
    by_cases h1 : response.isNullish = true
    · exact ⟨_, by simp [getMember, h1, bind, Except.bind]; rfl⟩
    · by_cases h2 : (response.prop "queryResult").isNullish = true
      · exact ⟨_, by simp [getMember, h1, h2, bind, Except.bind]; rfl⟩
      · simp [h1, h2] at h

theorem chat_malformed_reply (client : SessionsClient) (pid : String)
    (body sessionPath resolved : JsVal)
    (hb : body.isNullish = false) (hm : (body.prop "message").toBoolean = true)
    (hp : pid ≠ "")
    (hpath : client.projectAgentSessionPath pid (sessionIdOf body) = Except.ok sessionPath)
    (hdet : client.detectIntent (buildRequest sessionPath (body.prop "message"))
      = Except.ok resolved)
    (hq : queryResultOf resolved = none) :
    chat client (some pid) body =
      ⟨fallbackResponse, [buildRequest sessionPath (body.prop "message")]⟩ := by
  obtain ⟨e, he⟩ := handleReply_of_malformed resolved (sessionIdOf body) hq
  rw [chat_detect_resolves client pid body sessionPath resolved hb hm hp hpath hdet, he]

theorem chat_good_reply (client : SessionsClient) (pid : String)
    (body sessionPath resolved queryResult : JsVal)
    (hb : body.isNullish = false) (hm : (body.prop "message").toBoolean = true)
    (hp : pid ≠ "")
    (hpath : client.projectAgentSessionPath pid (sessionIdOf body) = Except.ok sessionPath)
    (hdet : client.detectIntent (buildRequest sessionPath (body.prop "message"))
      = Except.ok resolved)
    (hq : queryResultOf resolved = some queryResult) :
    chat client (some pid) body =
      ⟨⟨200, buildResult queryResult (sessionIdOf body)⟩,
        [buildRequest sessionPath (body.prop "message")]⟩ := by
  rw [chat_detect_resolves client pid body sessionPath resolved hb hm hp hpath hdet,
    handleReply_of_queryResult resolved (sessionIdOf body) queryResult hq]

/-- A run that answers 200 is a run in which the body was destructured, both
checks passed, the session path was built, `detectIntent` resolved, and the
resolved value had a query result, from which the body was built. -/
theorem chat_status_200 (client : SessionsClient) (projectId : Option String) (body : JsVal)
    (h : (chat client projectId body).response.status = 200) :
    ∃ pid sessionPath resolved queryResult,
      projectId = some pid ∧ pid ≠ "" ∧ body.isNullish = false ∧
      (body.prop "message").toBoolean = true ∧
      client.projectAgentSessionPath pid (sessionIdOf body) = Except.ok sessionPath ∧
      client.detectIntent (buildRequest sessionPath (body.prop "message"))
        = Except.ok resolved ∧
      queryResultOf resolved = some queryResult ∧
      chat client projectId body =
        ⟨⟨200, buildResult queryResult (sessionIdOf body)⟩,
          [buildRequest sessionPath (body.prop "message")]⟩ := by
  cases hb : body.isNullish with
  | true => rw [chat_nullish_body client projectId body hb] at h; simp [fallbackResponse] at h
  | false =>
    cases hm : (body.prop "message").toBoolean with
    | false => rw [chat_falsy_message client projectId body hb hm] at h; simp at h
    | true =>
      cases projectId with
      | none => rw [chat_no_project client none body hb hm (Or.inl rfl)] at h; simp at h
      | some pid =>
        by_cases hp : pid = ""
        · subst hp
          rw [chat_no_project client (some "") body hb hm (Or.inr rfl)] at h; simp at h
        · cases hpath : client.projectAgentSessionPath pid (sessionIdOf body) with
          | error e =>
            rw [chat_path_throws client pid body e hb hm hp hpath] at h
            simp [fallbackResponse] at h
          | ok sessionPath =>
            cases hdet : client.detectIntent (buildRequest sessionPath (body.prop "message")) with
            | error e =>
              rw [chat_detect_rejects client pid body sessionPath e hb hm hp hpath hdet] at h
              simp [fallbackResponse] at h
            | ok resolved =>
              cases hq : queryResultOf resolved with
              | none =>
                rw [chat_malformed_reply client pid body sessionPath resolved
                  hb hm hp hpath hdet hq] at h
                simp [fallbackResponse] at h
              | some queryResult =>
                exact ⟨pid, sessionPath, resolved, queryResult, rfl, hp, rfl, rfl, hpath, hdet, hq,
                  chat_good_reply client pid body sessionPath resolved queryResult
                    hb hm hp hpath hdet hq⟩

/-- Every run of the chat handler is one of five: the fallback without a call,
the 400, the configuration error, the fallback after one call, the 200 after
one call. -/
theorem chat_cases (client : SessionsClient) (projectId : Option String) (body : JsVal) :
    chat client projectId body = ⟨fallbackResponse, []⟩ ∨
    chat client projectId body = ⟨⟨400, obj [("error", str "Message is required")]⟩, []⟩ ∨
    chat client projectId body =
      ⟨⟨500, obj [("error", str "Dialogflow project ID not configured")]⟩, []⟩ ∨
    (∃ request, chat client projectId body = ⟨fallbackResponse, [request]⟩) ∨
    (∃ request queryResult, chat client projectId body =
      ⟨⟨200, buildResult queryResult (sessionIdOf body)⟩, [request]⟩) := by
  cases hb : body.isNullish with
  | true => exact Or.inl (chat_nullish_body client projectId body hb)
  | false =>
    cases hm : (body.prop "message").toBoolean with
    | false => exact Or.inr (Or.inl (chat_falsy_message client projectId body hb hm))
    | true =>
      cases projectId with
      | none => exact Or.inr (Or.inr (Or.inl (chat_no_project client none body hb hm (Or.inl rfl))))
      | some pid =>
        by_cases hp : pid = ""
        · subst hp
          exact Or.inr (Or.inr (Or.inl (chat_no_project client (some "") body hb hm (Or.inr rfl))))
        · cases hpath : client.projectAgentSessionPath pid (sessionIdOf body) with
          | error e => exact Or.inl (chat_path_throws client pid body e hb hm hp hpath)
          | ok sessionPath =>
            cases hdet : client.detectIntent (buildRequest sessionPath (body.prop "message")) with
            | error e =>
              exact Or.inr (Or.inr (Or.inr (Or.inl
                ⟨_, chat_detect_rejects client pid body sessionPath e hb hm hp hpath hdet⟩)))
            | ok resolved =>
              cases hq : queryResultOf resolved with
              | none =>
                exact Or.inr (Or.inr (Or.inr (Or.inl
                  ⟨_, chat_malformed_reply client pid body sessionPath resolved
                    hb hm hp hpath hdet hq⟩)))
              | some queryResult =>
                exact Or.inr (Or.inr (Or.inr (Or.inr
                  ⟨_, queryResult, chat_good_reply client pid body sessionPath resolved
                    queryResult hb hm hp hpath hdet hq⟩)))

/-! ## The claims about the chat handler -/

/-- C1, against the claim as stated: when no body was parsed, `req.body` is
`undefined`; its `message` is missing, the pattern of line 31 throws, and the
handler answers with the 500 fallback, not with 400. -/
theorem chat_undefined_body :
    JsVal.prop undefined "message" = undefined ∧
    (chat (sampleClient (Except.ok null)) (some "proj") undefined).response.status = 500 ∧
    (chat (sampleClient (Except.ok null)) (some "proj") undefined).response.status ≠ 400 ∧
    (chat (sampleClient (Except.ok null)) (some "proj") undefined).response.body
      = obj [("error", str "Failed to process message"),
             ("text", str "I\x27m having trouble connecting right now. Please try again in a moment."),
             ("intent", str "error")] :=
  ⟨rfl, rfl, by decide, rfl⟩

/-- C1, amended: a request whose `message` is missing or is the empty string is
answered, whatever the other fields of the body, the project id and the client
are, with status 400 and the body `{error: "Message is required"}` when
`req.body` is a value the pattern of line 31 can destructure (any parsed JSON
body), and with the 500 fallback when `req.body` is `undefined` or `null`. -/
theorem chat_message_required (client : SessionsClient) (projectId : Option String)
    (body : JsVal)
    (hm : body.prop "message" = undefined ∨ body.prop "message" = str "") :
    (body.isNullish = false →
      (chat client projectId body).response.status = 400 ∧
      (chat client projectId body).response.body
        = obj [("error", str "Message is required")]) ∧
    (body.isNullish = true →
      (chat client projectId body).response.status = 500 ∧
      (chat client projectId body).response.body
        = obj [("error", str "Failed to process message"),
               ("text", str "I\x27m having trouble connecting right now. Please try again in a moment."),
               ("intent", str "error")]) := by
  have hf : (body.prop "message").toBoolean = false := by
    rcases hm with hm | hm <;> simp [hm, JsVal.toBoolean]
  constructor
  · intro hb
    rw [chat_falsy_message client projectId body hb hf]
    exact ⟨rfl, rfl⟩
  · intro hb
    rw [chat_nullish_body client projectId body hb]
    exact ⟨rfl, rfl⟩

theorem chat_message_required_witness :
    ((obj [("sessionId", str "s-1"), ("message", str "")]).prop "message" = undefined ∨
      (obj [("sessionId", str "s-1"), ("message", str "")]).prop "message" = str "") ∧
    (chat (sampleClient (Except.ok null)) (some "proj")
      (obj [("sessionId", str "s-1"), ("message", str "")])).response.status = 400 ∧
    (chat (sampleClient (Except.ok null)) (some "proj")
      (obj [("sessionId", str "s-1"), ("message", str "")])).response.body
        = obj [("error", str "Message is required")] :=
  ⟨Or.inr rfl, (chat_message_required (sampleClient (Except.ok null)) (some "proj")
    (obj [("sessionId", str "s-1"), ("message", str "")]) (Or.inr rfl)).1 rfl⟩

/-- C3: when a request passes the message and project-id checks and the
external call fails (the session-path construction throws, or `detectIntent`
rejects, or it resolves with a value in which no query result is found), the
handler answers with status 500 and the fixed fallback body, the same for every
thrown value and every request. -/
theorem chat_external_failure (client : SessionsClient) (pid : String) (body : JsVal)
    (hb : body.isNullish = false) (hm : (body.prop "message").toBoolean = true)
    (hp : pid ≠ "")
    (hfail :
      (∃ e, client.projectAgentSessionPath pid (sessionIdOf body) = Except.error e) ∨
      (∃ sessionPath,
        client.projectAgentSessionPath pid (sessionIdOf body) = Except.ok sessionPath ∧
        ((∃ e, client.detectIntent (buildRequest sessionPath (body.prop "message"))
            = Except.error e) ∨
         (∃ resolved, client.detectIntent (buildRequest sessionPath (body.prop "message"))
            = Except.ok resolved ∧ queryResultOf resolved = none)))) :
    (chat client (some pid) body).response.status = 500 ∧
    (chat client (some pid) body).response.body =
      obj [("error", str "Failed to process message"),
           ("text", str "I\x27m having trouble connecting right now. Please try again in a moment."),
           ("intent", str "error")] := by
  rcases hfail with ⟨e, hpath⟩ | ⟨sessionPath, hpath, ⟨e, hdet⟩ | ⟨resolved, hdet, hq⟩⟩
  · rw [chat_path_throws client pid body e hb hm hp hpath]
    exact ⟨rfl, rfl⟩
  · rw [chat_detect_rejects client pid body sessionPath e hb hm hp hpath hdet]
    exact ⟨rfl, rfl⟩
  · rw [chat_malformed_reply client pid body sessionPath resolved hb hm hp hpath hdet hq]
    exact ⟨rfl, rfl⟩

theorem chat_external_failure_witness :
    (chat (sampleClient (Except.error (str "UNAVAILABLE: quota exceeded"))) (some "proj")
      (obj [("message", str "hello")])).response.status = 500 ∧
    (chat (sampleClient (Except.error (str "UNAVAILABLE: quota exceeded"))) (some "proj")
      (obj [("message", str "hello")])).response.body =
      obj [("error", str "Failed to process message"),
           ("text", str "I\x27m having trouble connecting right now. Please try again in a moment."),
           ("intent", str "error")] :=
  chat_external_failure (sampleClient (Except.error (str "UNAVAILABLE: quota exceeded")))
    "proj" (obj [("message", str "hello")]) rfl rfl (by decide)
    (Or.inr ⟨str "projects/proj/agent/sessions/default-session", rfl, Or.inl ⟨_, rfl⟩⟩)

/-- C4, against the claim as stated: with `GOOGLE_PROJECT_ID` unset, the empty
body `{}` is answered with status 400, not 500: the message check runs first. -/
theorem chat_unset_project_empty_body :
    (chat (sampleClient (Except.ok null)) none (obj [])).response.status = 400 ∧
    (chat (sampleClient (Except.ok null)) none (obj [])).response.status ≠ 500 ∧
    (chat (sampleClient (Except.ok null)) none (obj [])).response.body
      = obj [("error", str "Message is required")] :=
  ⟨rfl, by decide, rfl⟩

/-- C4, amended: with `GOOGLE_PROJECT_ID` unset, every request body that passes
the message check (its `message` is truthy) is answered with status 500 and the
body `{error: "Dialogflow project ID not configured"}`, whatever the client. -/
theorem chat_project_unset (client : SessionsClient) (body : JsVal)
    (hb : body.isNullish = false) (hm : (body.prop "message").toBoolean = true) :
    (chat client none body).response.status = 500 ∧
    (chat client none body).response.body
      = obj [("error", str "Dialogflow project ID not configured")] := by
  rw [chat_no_project client none body hb hm (Or.inl rfl)]
  exact ⟨rfl, rfl⟩

theorem chat_project_unset_witness :
    (obj [("message", str "hello")]).isNullish = false ∧
    ((obj [("message", str "hello")]).prop "message").toBoolean = true ∧
    (chat (sampleClient (Except.ok null)) none (obj [("message", str "hello")])).response.status
      = 500 ∧
    (chat (sampleClient (Except.ok null)) none (obj [("message", str "hello")])).response.body
      = obj [("error", str "Dialogflow project ID not configured")] :=
  ⟨rfl, rfl, chat_project_unset (sampleClient (Except.ok null))
    (obj [("message", str "hello")]) rfl rfl⟩

/-- C5: in every response with status 200 the `sessionId` is "default-session"
when the request body has no `sessionId`, and is the string of the request body
unchanged when it has one, whatever the external service replied. -/
theorem chat_session_id (client : SessionsClient) (projectId : Option String) (body : JsVal)
    (h : (chat client projectId body).response.status = 200) :
    (body.prop "sessionId" = undefined →
      (chat client projectId body).response.body.prop "sessionId" = str "default-session") ∧
    (∀ s : String, body.prop "sessionId" = str s →
      (chat client projectId body).response.body.prop "sessionId" = str s) := by
  obtain ⟨pid, sessionPath, resolved, queryResult, -, -, -, -, -, -, -, hrun⟩ :=
    chat_status_200 client projectId body h
  rw [hrun]
  have hsid : (buildResult queryResult (sessionIdOf body)).prop "sessionId" = sessionIdOf body := by
    simp [buildResult, JsVal.prop, List.lookup]
  constructor
  · intro hu
    simp only [hsid]
    simp [sessionIdOf, hu, defaultSessionId]
  · intro s hs
    simp only [hsid]
    simp [sessionIdOf, hs]

theorem chat_session_id_witness :
    (chat (sampleClient (Except.ok (resolvedWith sampleReply []))) (some "proj")
      (obj [("message", str "hi"), ("sessionId", str "abc")])).response.status = 200 ∧
    (chat (sampleClient (Except.ok (resolvedWith sampleReply []))) (some "proj")
      (obj [("message", str "hi"), ("sessionId", str "abc")])).response.body.prop "sessionId"
        = str "abc" :=
  ⟨rfl, (chat_session_id (sampleClient (Except.ok (resolvedWith sampleReply []))) (some "proj")
    (obj [("message", str "hi"), ("sessionId", str "abc")]) rfl).2 "abc" rfl⟩

/-- C7, against the claim as stated: the body `{message: "hi", sessionId: null}`
passes the message and project-id checks, the session-path construction throws
on the `null` session id, and the handler answers with the fallback 500 without
any `detectIntent` call. -/
theorem chat_no_call_when_path_throws :
    ((obj [("message", str "hi"), ("sessionId", null)]).prop "message").toBoolean = true ∧
    (chat (sampleClient (Except.ok (resolvedWith sampleReply []))) (some "proj")
      (obj [("message", str "hi"), ("sessionId", null)])).calls = [] ∧
    (chat (sampleClient (Except.ok (resolvedWith sampleReply []))) (some "proj")
      (obj [("message", str "hi"), ("sessionId", null)])).calls.length ≠ 1 ∧
    (chat (sampleClient (Except.ok (resolvedWith sampleReply []))) (some "proj")
      (obj [("message", str "hi"), ("sessionId", null)])).response.status = 500 :=
  ⟨rfl, rfl, by decide, rfl⟩

/-- C7, amended: when a request passes the message and project-id checks and
the session-path construction returns a path, the handler issues exactly one
`detectIntent` call, also when that call fails; its request has `session` equal
to that path, built from the configured project id and the session id of the
request ("default-session" when the request has none),
`queryInput.text.text` equal to the `message` of the request unchanged, and
`queryInput.text.languageCode` equal to "en-US". -/
theorem chat_one_call (client : SessionsClient) (pid : String) (body sessionPath : JsVal)
    (hb : body.isNullish = false) (hm : (body.prop "message").toBoolean = true)
    (hp : pid ≠ "")
    (hpath : client.projectAgentSessionPath pid (sessionIdOf body) = Except.ok sessionPath) :
    (body.prop "sessionId" = undefined → sessionIdOf body = str "default-session") ∧
    (body.prop "sessionId" ≠ undefined → sessionIdOf body = body.prop "sessionId") ∧
    ∃ request, (chat client (some pid) body).calls = [request] ∧
      request.prop "session" = sessionPath ∧
      ((request.prop "queryInput").prop "text").prop "text" = body.prop "message" ∧
      ((request.prop "queryInput").prop "text").prop "languageCode" = str "en-US" := by
  refine ⟨fun hu => by simp [sessionIdOf, hu, defaultSessionId], fun hu => ?_,
    buildRequest sessionPath (body.prop "message"), ?_, ?_, ?_, ?_⟩
  · unfold sessionIdOf
    cases hs : body.prop "sessionId" <;> simp_all
  · cases hdet : client.detectIntent (buildRequest sessionPath (body.prop "message")) with
    | error e => rw [chat_detect_rejects client pid body sessionPath e hb hm hp hpath hdet]
    | ok resolved =>
      rw [chat_detect_resolves client pid body sessionPath resolved hb hm hp hpath hdet]
  · simp [buildRequest, JsVal.prop, List.lookup]
  · simp [buildRequest, JsVal.prop, List.lookup]
  · simp [buildRequest, JsVal.prop, List.lookup]

theorem chat_one_call_witness :
    ∃ request,
      (chat (sampleClient (Except.error (str "DEADLINE_EXCEEDED"))) (some "proj")
        (obj [("message", str "I feel anxious")])).calls = [request] ∧
      request.prop "session" = str "projects/proj/agent/sessions/default-session" ∧
      ((request.prop "queryInput").prop "text").prop "text" = str "I feel anxious" ∧
      ((request.prop "queryInput").prop "text").prop "languageCode" = str "en-US" :=
  (chat_one_call (sampleClient (Except.error (str "DEADLINE_EXCEEDED"))) "proj"
    (obj [("message", str "I feel anxious")])
    (str "projects/proj/agent/sessions/default-session") rfl rfl (by decide) rfl).2.2

/-- C10: the handler makes at most one `detectIntent` call; it makes none when
it answers 400 and none when it answers with the configuration error; and the
message check comes first: a body whose `message` is falsy is answered 400,
without a call, whatever the project id is. -/
theorem chat_calls (client : SessionsClient) (projectId : Option String) (body : JsVal) :
    (chat client projectId body).calls.length ≤ 1 ∧
    ((chat client projectId body).response.status = 400 →
      (chat client projectId body).calls = []) ∧
    ((chat client projectId body).response.body
        = obj [("error", str "Dialogflow project ID not configured")] →
      (chat client projectId body).calls = []) ∧
    (body.isNullish = false → (body.prop "message").toBoolean = false →
      (chat client projectId body).response.status = 400 ∧
      (chat client projectId body).calls = []) := by
  refine ⟨?_, ?_, ?_, ?_⟩
  · rcases chat_cases client projectId body with h | h | h | ⟨r, h⟩ | ⟨r, q, h⟩ <;> simp [h]
  · rcases chat_cases client projectId body with h | h | h | ⟨r, h⟩ | ⟨r, q, h⟩ <;>
      simp [h, fallbackResponse]
  · rcases chat_cases client projectId body with h | h | h | ⟨r, h⟩ | ⟨r, q, h⟩ <;>
      simp [h, fallbackResponse, buildResult]
  · intro hb hm
    rw [chat_falsy_message client projectId body hb hm]
    exact ⟨rfl, rfl⟩

theorem isNullish_of_prop (v : JsVal) (k : String) (h : v.prop k ≠ undefined) :
    v.isNullish = false := by
  cases v <;> simp_all [JsVal.prop, JsVal.isNullish]

theorem or_optString (v d : JsVal) (h : isOptString v = true) :
    v.or d = if (isPresent v && !isEmptyString v) = true then v else d := by
  cases v with
  | str s =>
    by_cases hs : s = "" <;>
      simp [JsVal.or, JsVal.toBoolean, isPresent, JsVal.isNullish, isEmptyString, hs]
  | undefined => simp [JsVal.or, JsVal.toBoolean, isPresent, JsVal.isNullish]
  | null => simp [JsVal.or, JsVal.toBoolean, isPresent, JsVal.isNullish]
  | bool b => simp [isOptString] at h
  | num n => simp [isOptString] at h
  | arr xs => simp [isOptString] at h
  | obj fs => simp [isOptString] at h

theorem or_optFiniteNumber (v d : JsVal) (h : isOptFiniteNumber v = true) :
    v.or d = if (isPresent v && !isZeroNumber v) = true then v else d := by
  cases v with
  | num n =>
    cases n with
    | fin q =>
      by_cases hq : q = 0 <;>
        simp [JsVal.or, JsVal.toBoolean, isPresent, JsVal.isNullish, isZeroNumber,
          JsNum.isZero, hq]
    | negZero =>
      simp [JsVal.or, JsVal.toBoolean, isPresent, JsVal.isNullish, isZeroNumber, JsNum.isZero]
    | nan => simp [isOptFiniteNumber] at h
    | inf b => simp [isOptFiniteNumber] at h
  | undefined => simp [JsVal.or, JsVal.toBoolean, isPresent, JsVal.isNullish]
  | null => simp [JsVal.or, JsVal.toBoolean, isPresent, JsVal.isNullish]
  | bool b => simp [isOptFiniteNumber] at h
  | str s => simp [isOptFiniteNumber] at h
  | arr xs => simp [isOptFiniteNumber] at h
  | obj fs => simp [isOptFiniteNumber] at h

theorem or_displayName (intent : JsVal) (h : isOptString (optChain intent "displayName") = true) :
    (optChain intent "displayName").or (str "unknown") =
      if (isPresent intent && isPresent (intent.prop "displayName") &&
          !isEmptyString (intent.prop "displayName")) = true then
        intent.prop "displayName"
      else str "unknown" := by
  rw [or_optString _ _ h]
  cases intent <;> simp [optChain, isPresent, JsVal.isNullish, isEmptyString]

/-- The `result` object of the code is the reference mapping on every query
result whose three fields are typed as the service sends them. -/
theorem buildResult_reference (queryResult sessionId : JsVal)
    (h : typedQueryResult queryResult = true) :
    buildResult queryResult sessionId = referenceResult queryResult sessionId := by
  simp only [typedQueryResult, Bool.and_eq_true] at h
  obtain ⟨⟨h1, h2⟩, h3⟩ := h
  unfold buildResult referenceResult referenceText referenceIntent referenceConfidence
  rw [or_optString _ _ h1, or_displayName _ h2, or_optFiniteNumber _ _ h3]

theorem result_text (queryResult sessionId : JsVal) :
    (buildResult queryResult sessionId).prop "text"
      = (queryResult.prop "fulfillmentText").or (str apologyText) := by
  simp [buildResult, JsVal.prop, List.lookup]

theorem result_confidence (queryResult sessionId : JsVal) :
    (buildResult queryResult sessionId).prop "confidence"
      = (queryResult.prop "intentDetectionConfidence").or (num (JsNum.fin 0)) := by
  simp [buildResult, JsVal.prop, List.lookup]

/-- C2, against the claim as stated: the message "hi" is a non-empty string,
the project id is configured and `detectIntent` returns a reply, but the reply
has no `queryResult`, and the handler answers with status 500, not 200. -/
theorem chat_reply_without_query_result :
    (chat (sampleClient (Except.ok (resolvedWith ⟨none⟩ []))) (some "proj")
      (obj [("message", str "hi")])).response.status = 500 ∧
    (chat (sampleClient (Except.ok (resolvedWith ⟨none⟩ []))) (some "proj")
      (obj [("message", str "hi")])).response.status ≠ 200 ∧
    (chat (sampleClient (Except.ok (resolvedWith ⟨none⟩ []))) (some "proj")
      (obj [("message", str "hi")])).calls.length = 1 :=
  ⟨rfl, by decide, rfl⟩

/-- C2, amended: when the `message` of the request is a non-empty string, the
project id is configured, and `detectIntent` returns a reply that has a
`queryResult`, the handler answers with status 200 and the `text` of the body
is the fulfillment text of the reply when that is present and non-empty, and
the fixed apology otherwise; it is a non-empty string (the fulfillment text
being a string, as the service sends it, or not set). -/
theorem chat_text (client : SessionsClient) (pid : String)
    (body sessionPath resolved queryResult : JsVal) (m : String)
    (hmsg : body.prop "message" = str m) (hne : m ≠ "") (hp : pid ≠ "")
    (hpath : client.projectAgentSessionPath pid (sessionIdOf body) = Except.ok sessionPath)
    (hdet : client.detectIntent (buildRequest sessionPath (str m)) = Except.ok resolved)
    (hq : queryResultOf resolved = some queryResult) :
    (chat client (some pid) body).response.status = 200 ∧
    (∀ f : String, queryResult.prop "fulfillmentText" = str f → f ≠ "" →
      (chat client (some pid) body).response.body.prop "text" = str f) ∧
    ((queryResult.prop "fulfillmentText").isNullish = true ∨
        queryResult.prop "fulfillmentText" = str "" →
      (chat client (some pid) body).response.body.prop "text"
        = str "I apologize, but I didn\x27t understand that. Could you rephrase?") ∧
    (isOptString (queryResult.prop "fulfillmentText") = true →
      ∃ t : String, (chat client (some pid) body).response.body.prop "text" = str t ∧ t ≠ "") := by
  have hb : body.isNullish = false := isNullish_of_prop body "message" (by simp [hmsg])
  have hm : (body.prop "message").toBoolean = true := by simp [hmsg, JsVal.toBoolean, hne]
  rw [← hmsg] at hdet
  rw [chat_good_reply client pid body sessionPath resolved queryResult hb hm hp hpath hdet hq]
  refine ⟨rfl, ?_, ?_, ?_⟩
  · intro f hf hfne
    show (buildResult queryResult (sessionIdOf body)).prop "text" = str f
    rw [result_text, hf]
    simp [JsVal.or, JsVal.toBoolean, hfne]
  · intro hf
    show (buildResult queryResult (sessionIdOf body)).prop "text" = _
    rw [result_text]
    rcases hf with hf | hf
    · cases hv : queryResult.prop "fulfillmentText" <;>
        simp_all [JsVal.or, JsVal.toBoolean, JsVal.isNullish, apologyText]
    · simp [hf, JsVal.or, JsVal.toBoolean, apologyText]
  · intro ht
    show ∃ t : String, (buildResult queryResult (sessionIdOf body)).prop "text" = str t ∧ t ≠ ""
    rw [result_text]
    cases hv : queryResult.prop "fulfillmentText" with
    | str f =>
      by_cases hf : f = ""
      · exact ⟨apologyText, by simp [JsVal.or, JsVal.toBoolean, hf], by decide⟩
      · exact ⟨f, by simp [JsVal.or, JsVal.toBoolean, hf], hf⟩
    | undefined => exact ⟨apologyText, by simp [JsVal.or, JsVal.toBoolean], by decide⟩
    | null => exact ⟨apologyText, by simp [JsVal.or, JsVal.toBoolean], by decide⟩
    | bool b => simp [hv, isOptString] at ht
    | num n => simp [hv, isOptString] at ht
    | arr xs => simp [hv, isOptString] at ht
    | obj fs => simp [hv, isOptString] at ht

theorem chat_text_witness :
    (chat (sampleClient (Except.ok dialogflowResolved)) (some "proj")
      (obj [("message", str "hi")])).response.status = 200 ∧
    (chat (sampleClient (Except.ok dialogflowResolved)) (some "proj")
      (obj [("message", str "hi")])).response.body.prop "text"
        = str "Hello! How are you feeling today?" :=
  ⟨rfl, (chat_text (sampleClient (Except.ok dialogflowResolved)) "proj"
    (obj [("message", str "hi")]) (str "projects/proj/agent/sessions/default-session")
    dialogflowResolved dialogflowQueryResult "hi"
    rfl (by decide) (by decide) rfl rfl rfl).2.1 "Hello! How are you feeling today?" rfl
      (by decide)⟩

/-- C6: in every response with status 200, for the reply the handler received
from the external service, whose confidence is within the interval from 0 to 1
or not set: the `confidence` of the body is within the interval from 0 to 1 (it
is the confidence of the reply), and it is 0 when the reply carries no
confidence. -/
theorem chat_confidence (client : SessionsClient) (projectId : Option String) (body : JsVal)
    (h : (chat client projectId body).response.status = 200) :
    ∃ pid sessionPath resolved queryResult,
      projectId = some pid ∧
      client.projectAgentSessionPath pid (sessionIdOf body) = Except.ok sessionPath ∧
      client.detectIntent (buildRequest sessionPath (body.prop "message"))
        = Except.ok resolved ∧
      queryResultOf resolved = some queryResult ∧
      ((queryResult.prop "intentDetectionConfidence").inUnit →
        ((chat client projectId body).response.body.prop "confidence").inUnit ∧
        (chat client projectId body).response.body.prop "confidence"
          = queryResult.prop "intentDetectionConfidence") ∧
      ((queryResult.prop "intentDetectionConfidence").isNullish = true →
        ((chat client projectId body).response.body.prop "confidence").inUnit ∧
        (chat client projectId body).response.body.prop "confidence" = num (JsNum.fin 0)) := by
  obtain ⟨pid, sessionPath, resolved, queryResult, hpid, -, -, -, hpath, hdet, hq, hrun⟩ :=
    chat_status_200 client projectId body h
  refine ⟨pid, sessionPath, resolved, queryResult, hpid, hpath, hdet, hq, ?_⟩
  rw [hrun]
  have hc := result_confidence queryResult (sessionIdOf body)
  have hzero : (num (JsNum.fin 0)).inUnit := by simp [JsVal.inUnit, JsNum.inUnit]
  refine ⟨?_, ?_⟩
  · intro hin
    have heq : (queryResult.prop "intentDetectionConfidence").or (num (JsNum.fin 0))
        = queryResult.prop "intentDetectionConfidence" := by
      cases hv : queryResult.prop "intentDetectionConfidence" with
      | num n =>
        cases n with
        | fin r => by_cases hr : r = 0 <;> simp [JsVal.or, JsVal.toBoolean, hr]
        | negZero => simp [hv, JsVal.inUnit, JsNum.inUnit] at hin
        | nan => simp [hv, JsVal.inUnit, JsNum.inUnit] at hin
        | inf b => simp [hv, JsVal.inUnit, JsNum.inUnit] at hin
      | undefined => simp [hv, JsVal.inUnit] at hin
      | null => simp [hv, JsVal.inUnit] at hin
      | bool b => simp [hv, JsVal.inUnit] at hin
      | str t => simp [hv, JsVal.inUnit] at hin
      | arr xs => simp [hv, JsVal.inUnit] at hin
      | obj fs => simp [hv, JsVal.inUnit] at hin
    show ((buildResult queryResult (sessionIdOf body)).prop "confidence").inUnit ∧
      (buildResult queryResult (sessionIdOf body)).prop "confidence" = _
    rw [hc, heq]
    exact ⟨hin, rfl⟩
  · intro hn
    have heq : (queryResult.prop "intentDetectionConfidence").or (num (JsNum.fin 0))
        = num (JsNum.fin 0) := by
      cases hv : queryResult.prop "intentDetectionConfidence" <;>
        simp_all [JsVal.or, JsVal.toBoolean, JsVal.isNullish]
    show ((buildResult queryResult (sessionIdOf body)).prop "confidence").inUnit ∧
      (buildResult queryResult (sessionIdOf body)).prop "confidence" = _
    rw [hc, heq]
    exact ⟨hzero, rfl⟩

theorem chat_confidence_witness :
    ∃ pid sessionPath resolved queryResult,
      some "proj" = some pid ∧
      (sampleClient (Except.ok dialogflowResolved)).projectAgentSessionPath pid
        (sessionIdOf (obj [("message", str "hi")])) = Except.ok sessionPath ∧
      (sampleClient (Except.ok dialogflowResolved)).detectIntent
        (buildRequest sessionPath ((obj [("message", str "hi")]).prop "message"))
        = Except.ok resolved ∧
      queryResultOf resolved = some queryResult ∧
      ((queryResult.prop "intentDetectionConfidence").inUnit →
        ((chat (sampleClient (Except.ok dialogflowResolved)) (some "proj")
          (obj [("message", str "hi")])).response.body.prop "confidence").inUnit ∧
        (chat (sampleClient (Except.ok dialogflowResolved)) (some "proj")
          (obj [("message", str "hi")])).response.body.prop "confidence"
          = queryResult.prop "intentDetectionConfidence") ∧
      ((queryResult.prop "intentDetectionConfidence").isNullish = true →
        ((chat (sampleClient (Except.ok dialogflowResolved)) (some "proj")
          (obj [("message", str "hi")])).response.body.prop "confidence").inUnit ∧
        (chat (sampleClient (Except.ok dialogflowResolved)) (some "proj")
          (obj [("message", str "hi")])).response.body.prop "confidence" = num (JsNum.fin 0)) :=
  chat_confidence (sampleClient (Except.ok dialogflowResolved)) (some "proj")
    (obj [("message", str "hi")]) rfl

/-- C9: when a request passes the message and project-id checks, the session
path is built and `detectIntent` returns a reply that has a `queryResult` (its
three fields typed as the service sends them), the handler answers with status
200 and a body of exactly the four fields `text`, `intent`, `confidence`,
`sessionId`, equal to the reference mapping: the fulfillment text if present and
non-empty, else the apology; the display name of the intent if there is an
intent with a non-empty display name, else "unknown"; the confidence if present
and non-zero, else 0; the session id of the request ("default-session" when it
has none). -/
theorem chat_result_mapping (client : SessionsClient) (pid : String)
    (body sessionPath resolved queryResult : JsVal)
    (hb : body.isNullish = false) (hm : (body.prop "message").toBoolean = true)
    (hp : pid ≠ "")
    (hpath : client.projectAgentSessionPath pid (sessionIdOf body) = Except.ok sessionPath)
    (hdet : client.detectIntent (buildRequest sessionPath (body.prop "message"))
      = Except.ok resolved)
    (hq : queryResultOf resolved = some queryResult)
    (ht : typedQueryResult queryResult = true) :
    (chat client (some pid) body).response.status = 200 ∧
    (chat client (some pid) body).response.body =
      obj [("text", referenceText queryResult),
           ("intent", referenceIntent queryResult),
           ("confidence", referenceConfidence queryResult),
           ("sessionId", sessionIdOf body)] ∧
    (body.prop "sessionId" = undefined → sessionIdOf body = str "default-session") ∧
    (body.prop "sessionId" ≠ undefined → sessionIdOf body = body.prop "sessionId") := by
  rw [chat_good_reply client pid body sessionPath resolved queryResult hb hm hp hpath hdet hq,
    buildResult_reference queryResult (sessionIdOf body) ht]
  refine ⟨rfl, rfl, fun hu => by simp [sessionIdOf, hu, defaultSessionId], fun hu => ?_⟩
  unfold sessionIdOf
  cases hs : body.prop "sessionId" <;> simp_all

theorem chat_result_mapping_witness :
    (chat (sampleClient (Except.ok dialogflowResolved)) (some "proj")
      (obj [("message", str "hi"), ("sessionId", str "u42")])).response.status = 200 ∧
    (chat (sampleClient (Except.ok dialogflowResolved)) (some "proj")
      (obj [("message", str "hi"), ("sessionId", str "u42")])).response.body =
      obj [("text", str "Hello! How are you feeling today?"),
           ("intent", str "Default Welcome Intent"),
           ("confidence", num (JsNum.fin 1)),
           ("sessionId", str "u42")] :=
  ⟨rfl, (chat_result_mapping (sampleClient (Except.ok dialogflowResolved)) "proj"
    (obj [("message", str "hi"), ("sessionId", str "u42")])
    (str "projects/proj/agent/sessions/u42") dialogflowResolved dialogflowQueryResult
    rfl rfl (by decide) rfl rfl rfl rfl).2.1⟩

/-! ## The calendar and the date-time format -/

theorem dayFromYear_estimate (d : Int) :
    dayFromYear (1970 + d * 400 / 146097 - 1) ≤ d ∧
    d < dayFromYear (1970 + d * 400 / 146097 + 1 + 1) := by
  unfold dayFromYear
  omega

/-- The year of a day is the year the day lies in. -/
theorem yearFromDay_spec (d : Int) :
    dayFromYear (yearFromDay d) ≤ d ∧ d < dayFromYear (yearFromDay d + 1) := by
  have h := dayFromYear_estimate d
  unfold yearFromDay
  simp only
  split_ifs with h1 h2
  · rw [Int.sub_add_cancel]
    exact ⟨h.1, h1⟩
  · exact ⟨by omega, h.2⟩
  · exact ⟨by omega, by omega⟩

theorem dayFromYear_mono (y z : Int) (h : y ≤ z) : dayFromYear y ≤ dayFromYear z := by
  unfold dayFromYear
  omega

/-- The year of a time value is the largest year that starts at or before it,
which is how ECMA-262 defines `YearFromTime`. -/
theorem yearFromTime_largest (t y : Int) :
    dayFromYear y * msPerDay ≤ t ↔ y ≤ yearFromTime t := by
  have hs := yearFromDay_spec (day t)
  have hd : dayFromYear y * msPerDay ≤ t ↔ dayFromYear y ≤ day t := by
    unfold day msPerDay
    omega
  rw [hd]
  unfold yearFromTime
  constructor
  · intro h
    by_contra hlt
    have := dayFromYear_mono (yearFromDay (day t) + 1) y (by omega)
    omega
  · intro h
    have := dayFromYear_mono y (yearFromDay (day t)) h
    omega

theorem dayFromYear_succ (y : Int) : dayFromYear (y + 1) = dayFromYear y + daysInYear y := by
  unfold dayFromYear daysInYear
  split_ifs <;> omega

theorem dayWithinYear_bounds (t : Int) :
    0 ≤ dayWithinYear t ∧ dayWithinYear t < 365 + leapDays (yearFromTime t) := by
  have h := yearFromDay_spec (day t)
  rw [dayFromYear_succ] at h
  unfold dayWithinYear yearFromTime leapDays
  unfold daysInYear at *
  split_ifs at * <;> omega

theorem leapDays_cases (y : Int) : leapDays y = 0 ∨ leapDays y = 1 := by
  unfold leapDays
  split_ifs <;> simp

theorem monthOfDay_spec (d leap m : Int) (hm : monthOfDay d leap = m) (h0 : 0 ≤ d)
    (h1 : d < 365 + leap) (hl : leap = 0 ∨ leap = 1) :
    0 ≤ m ∧ m ≤ 11 ∧ monthStart m leap ≤ d ∧ d < monthStart m leap + 31 ∧
    (m ≠ 11 → d < monthStart (m + 1) leap) ∧ (m = 11 → d < monthStart 11 leap + 31) := by
  unfold monthOfDay at hm
  by_cases c0 : d < 31
  · rw [if_pos c0] at hm
    subst hm
    simp [monthStart]
    omega
  rw [if_neg c0] at hm
  by_cases c1 : d < 59 + leap
  · rw [if_pos c1] at hm
    subst hm
    simp [monthStart]
    omega
  rw [if_neg c1] at hm
  by_cases c2 : d < 90 + leap
  · rw [if_pos c2] at hm
    subst hm
    simp [monthStart]
    omega
  rw [if_neg c2] at hm
  by_cases c3 : d < 120 + leap
  · rw [if_pos c3] at hm
    subst hm
    simp [monthStart]
    omega
  rw [if_neg c3] at hm
  by_cases c4 : d < 151 + leap
  · rw [if_pos c4] at hm
    subst hm
    simp [monthStart]
    omega
  rw [if_neg c4] at hm
  by_cases c5 : d < 181 + leap
  · rw [if_pos c5] at hm
    subst hm
    simp [monthStart]
    omega
  rw [if_neg c5] at hm
  by_cases c6 : d < 212 + leap
  · rw [if_pos c6] at hm
    subst hm
    simp [monthStart]
    omega
  rw [if_neg c6] at hm
  by_cases c7 : d < 243 + leap
  · rw [if_pos c7] at hm
    subst hm
    simp [monthStart]
    omega
  rw [if_neg c7] at hm
  by_cases c8 : d < 273 + leap
  · rw [if_pos c8] at hm
    subst hm
    simp [monthStart]
    omega
  rw [if_neg c8] at hm
  by_cases c9 : d < 304 + leap
  · rw [if_pos c9] at hm
    subst hm
    simp [monthStart]
    omega
  rw [if_neg c9] at hm
  by_cases c10 : d < 334 + leap
  · rw [if_pos c10] at hm
    subst hm
    simp [monthStart]
    omega
  rw [if_neg c10] at hm
  subst hm
  simp [monthStart]
  omega

theorem month_date_bounds (t : Int) :
    0 ≤ monthFromTime t ∧ monthFromTime t ≤ 11 ∧ 1 ≤ dateFromTime t ∧ dateFromTime t ≤ 31 ∧
    dateFromTime t ≤ daysInMonth (yearFromTime t) (monthFromTime t) := by
  have h := dayWithinYear_bounds t
  have hl := leapDays_cases (yearFromTime t)
  have hm := monthOfDay_spec (dayWithinYear t) (leapDays (yearFromTime t)) _ rfl h.1 h.2 hl
  unfold dateFromTime daysInMonth monthFromTime
  refine ⟨hm.1, hm.2.1, by omega, by omega, ?_⟩
  split_ifs with h11
  · have := hm.2.2.2.2.2 h11
    rw [h11]
    omega
  · have := hm.2.2.2.2.1 h11
    omega

theorem makeDay_fromTime (t : Int) :
    makeDay (yearFromTime t) (monthFromTime t) (dateFromTime t) = day t := by
  unfold makeDay dateFromTime dayWithinYear
  omega

theorem makeDate_fromTime (t : Int) :
    makeDate (day t) (makeTime (hourFromTime t) (minFromTime t) (secFromTime t) (msFromTime t))
      = t := by
  unfold makeDate makeTime day hourFromTime minFromTime secFromTime msFromTime msPerDay
  omega

theorem year_bounds (t : Int) (h : -8640000000000000 ≤ t ∧ t ≤ 8640000000000000) :
    -271821 ≤ yearFromTime t ∧ yearFromTime t ≤ 275760 := by
  have hs := yearFromDay_spec (day t)
  unfold yearFromTime
  unfold day msPerDay at *
  unfold dayFromYear at hs
  omega

/-! ### Digits -/

theorem digitValue_digitChar (d : Nat) (h : d < 10) : digitValue (digitChar d) = some d := by
  interval_cases d <;> rfl

theorem digitChar_ne_sign (d : Nat) : digitChar d ≠ '+' ∧ digitChar d ≠ '-' := by
  have h : d % 10 < 10 := Nat.mod_lt _ (by norm_num)
  unfold digitChar
  generalize d % 10 = k at h
  interval_cases k <;> decide

theorem readDigitsFrom_pad (w : Nat) : ∀ (acc n : Nat) (rest : List Char), n < 10 ^ w →
    readDigitsFrom acc w (pad w n ++ rest) = some (acc * 10 ^ w + n, rest) := by
  induction w with
  | zero =>
    intro acc n rest h
    simp at h
    simp [readDigitsFrom, pad, h]
  | succ w ih =>
    intro acc n rest h
    have hpos : 0 < 10 ^ w := by positivity
    have hq : n / 10 ^ w < 10 := by
      rw [Nat.div_lt_iff_lt_mul hpos]
      rw [pow_succ] at h
      omega
    have hr : n % 10 ^ w < 10 ^ w := Nat.mod_lt _ hpos
    have hd : digitValue (digitChar (n / 10 ^ w)) = some (n / 10 ^ w) :=
      digitValue_digitChar _ hq
    simp only [pad, List.cons_append, readDigitsFrom, hd, List.append_eq]
    rw [ih _ _ _ hr]
    have hdm := Nat.div_add_mod n (10 ^ w)
    congr 2
    rw [pow_succ]
    nlinarith [hdm]

theorem readDigits_pad (w n : Nat) (rest : List Char) (h : n < 10 ^ w) :
    readDigits w (pad w n ++ rest) = some (n, rest) := by
  unfold readDigits
  rw [readDigitsFrom_pad w 0 n rest h]
  simp

theorem readYear_yearChars (y : Int) (rest : List Char)
    (h : -999999 ≤ y ∧ y ≤ 999999) :
    readYear (yearChars y ++ rest) = some (y, rest) := by
  unfold yearChars
  split_ifs with h1 h2
  · have hlt : y.toNat < 10 ^ 4 := by omega
    have hr := readDigits_pad 4 y.toNat rest hlt
    have hne := digitChar_ne_sign (y.toNat / 10 ^ 3)
    have hcons : pad 4 y.toNat ++ rest
        = digitChar (y.toNat / 10 ^ 3) :: (pad 3 (y.toNat % 10 ^ 3) ++ rest) := rfl
    rw [hcons] at hr ⊢
    simp only [readYear, hne.1, hne.2, if_false, hr]
    congr 2
    omega
  · have hlt : y.natAbs < 10 ^ 6 := by omega
    have hr := readDigits_pad 6 y.natAbs rest hlt
    have hz : y.natAbs ≠ 0 := by omega
    have hc : ('-' : Char) ≠ '+' := by decide
    simp only [List.cons_append, readYear, hc, if_false, if_true, hr, hz]
    congr 2
    omega
  · have hlt : y.natAbs < 10 ^ 6 := by omega
    have hr := readDigits_pad 6 y.natAbs rest hlt
    simp only [List.cons_append, readYear, if_true, hr]
    congr 2
    omega

/-! ### Reading what `toISOString` wrote -/

theorem expectChar_cons (c : Char) (rest : List Char) : expectChar c (c :: rest) = some rest := by
  simp [expectChar]

theorem time_bounds (t : Int) :
    0 ≤ hourFromTime t ∧ hourFromTime t ≤ 23 ∧ 0 ≤ minFromTime t ∧ minFromTime t ≤ 59 ∧
    0 ≤ secFromTime t ∧ secFromTime t ≤ 59 ∧ 0 ≤ msFromTime t ∧ msFromTime t ≤ 999 := by
  unfold hourFromTime minFromTime secFromTime msFromTime
  omega

theorem readNumberThen_pad (w n : Nat) (c : Char) (rest : List Char) (h : n < 10 ^ w) :
    readNumberThen w c (pad w n ++ c :: rest) = some (n, rest) := by
  unfold readNumberThen
  rw [readDigits_pad w n _ h]
  simp only [expectChar_cons]

theorem readTimeOfDay_pad (h m s ms : Nat) (hh : h < 10 ^ 2) (hm : m < 10 ^ 2)
    (hs : s < 10 ^ 2) (hms : ms < 10 ^ 3) :
    readTimeOfDay (pad 2 h ++ ':' :: (pad 2 m ++ ':' :: (pad 2 s ++ '.' :: (pad 3 ms ++ ['Z']))))
      = some (h, m, s, ms) := by
  unfold readTimeOfDay
  rw [readNumberThen_pad 2 h _ _ hh]
  simp only
  rw [readNumberThen_pad 2 m _ _ hm]
  simp only
  rw [readNumberThen_pad 2 s _ _ hs]
  simp only
  rw [readNumberThen_pad 3 ms _ _ hms]
  simp only [if_true]

theorem readFields_isoChars (t : Int) (h : -8640000000000000 ≤ t ∧ t ≤ 8640000000000000) :
    readFields (isoChars t) =
      some ⟨yearFromTime t, (monthFromTime t + 1).toNat, (dateFromTime t).toNat,
        (hourFromTime t).toNat, (minFromTime t).toNat, (secFromTime t).toNat,
        (msFromTime t).toNat⟩ := by
  have hy := year_bounds t h
  have hmd := month_date_bounds t
  have ht := time_bounds t
  have hmo : (monthFromTime t + 1).toNat < 10 ^ 2 := by omega
  have hda : (dateFromTime t).toNat < 10 ^ 2 := by omega
  have hho : (hourFromTime t).toNat < 10 ^ 2 := by omega
  have hmi : (minFromTime t).toNat < 10 ^ 2 := by omega
  have hse : (secFromTime t).toNat < 10 ^ 2 := by omega
  have hms : (msFromTime t).toNat < 10 ^ 3 := by omega
  have hyb : -999999 ≤ yearFromTime t ∧ yearFromTime t ≤ 999999 := by omega
  unfold readFields isoChars
  rw [readYear_yearChars _ _ hyb]
  simp only [expectChar_cons]
  rw [readNumberThen_pad 2 _ _ _ hmo]
  simp only
  rw [readNumberThen_pad 2 _ _ _ hda]
  simp only
  rw [readTimeOfDay_pad _ _ _ _ hho hmi hse hms]

theorem fieldsTime_fromTime (t : Int) (h : -8640000000000000 ≤ t ∧ t ≤ 8640000000000000) :
    fieldsTime ⟨yearFromTime t, (monthFromTime t + 1).toNat, (dateFromTime t).toNat,
        (hourFromTime t).toNat, (minFromTime t).toNat, (secFromTime t).toNat,
        (msFromTime t).toNat⟩ = some t := by
  have hmd := month_date_bounds t
  have ht := time_bounds t
  have e1 : (((monthFromTime t + 1).toNat : Nat) : Int) - 1 = monthFromTime t := by omega
  have e1' : ((((monthFromTime t + 1).toNat - 1 : Nat) : Nat) : Int) = monthFromTime t := by omega
  have e2 : (((dateFromTime t).toNat : Nat) : Int) = dateFromTime t := by omega
  have e3 : (((hourFromTime t).toNat : Nat) : Int) = hourFromTime t := by omega
  have e4 : (((minFromTime t).toNat : Nat) : Int) = minFromTime t := by omega
  have e5 : (((secFromTime t).toNat : Nat) : Int) = secFromTime t := by omega
  have e6 : (((msFromTime t).toNat : Nat) : Int) = msFromTime t := by omega
  unfold fieldsTime
  simp only [e1, e1', e2, e3, e4, e5, e6, makeDay_fromTime, makeDate_fromTime]
  rw [if_pos ⟨by omega, by omega, by omega, hmd.2.2.2.2, by omega, by omega, by omega⟩]
  simp [timeClip, h]

/-- The string `toISOString` writes for a valid time value is read back as that
time value. -/
theorem parseISO_isoString (t : Int) (h : -8640000000000000 ≤ t ∧ t ≤ 8640000000000000) :
    parseISO (isoString t) = some t := by
  unfold parseISO isoString
  simp only [String.toList, readFields_isoChars t h, fieldsTime_fromTime t h]

/-! ## The health handler -/

/-- C8: whenever the clock reads a valid time value, the health handler answers
with status 200 and a body of exactly the fields `message`, `status` and
`timestamp`, with the fixed message, the status "healthy" and, as timestamp,
the ISO-8601 string of the clock reading, which is read back as a date-time,
namely as that reading; the handler throws nothing. -/
theorem health_ok (clock : Int)
    (h : -8640000000000000 ≤ clock ∧ clock ≤ 8640000000000000) :
    health clock = Except.ok ⟨200, obj [("message", str "Therapy Chatbot Backend is running!"),
                                        ("status", str "healthy"),
                                        ("timestamp", str (isoString clock))]⟩ ∧
    parseISO (isoString clock) = some clock := by
  refine ⟨?_, parseISO_isoString clock h⟩
  simp [health, newDate, timeClip, h, toISOString, bind, Except.bind, pure, Except.pure]

theorem health_ok_witness :
    health 1793750400123 =
      Except.ok ⟨200, obj [("message", str "Therapy Chatbot Backend is running!"),
                           ("status", str "healthy"),
                           ("timestamp", str "2026-11-04T00:00:00.123Z")]⟩ ∧
    parseISO "2026-11-04T00:00:00.123Z" = some 1793750400123 :=
  health_ok 1793750400123 (by decide)

end ChatTherapy
